import Mathlib

/-!
Verification of the graphite paint-key construction code
(src/gpu/graphite/KeyHelpers.cpp).

The block writers are embedded shallowly: each writer is a Lean function
that returns the trace of calls it issues, split into the key-builder
trace (beginBlock/endBlock operations), the uniform-write trace, and the
resource-binding trace.  External collaborators (the resource provider,
the runtime-effect dictionary, the color-space transform-step
computation, color mapping, Porter-Duff coefficient lookup) are fields
of an environment record, so theorems quantify over their behavior.
Machine floats are modelled as rationals; none of the verified
properties depend on floating-point rounding.
-/

namespace SkiaGraphite

/-- Premultiplied RGBA color (SkPMColor4f). -/
def Color : Type := ℚ × ℚ × ℚ × ℚ

instance : DecidableEq Color := by unfold Color; infer_instance

instance : Repr Color := by unfold Color; infer_instance

instance : Inhabited Color := ⟨(0, 0, 0, 0)⟩

/-- The zero color used when bzeroing color storage. -/
def cZero : Color := (0, 0, 0, 0)

/-- The fixed error color substituted for unusable image shaders
(constant kErrorColor in KeyHelpers.cpp: opaque red). -/
def kErrorColor : Color := (1, 0, 0, 1)

/-- A texture proxy reference: an identity plus its pixel dimensions. -/
structure TextureProxy where
  id : Nat
  width : Int
  height : Int
  deriving DecidableEq, Repr

/-- SkTileMode. -/
inductive TileMode where
  | clamp
  | repeatTM
  | mirror
  | decal
  deriving DecidableEq, Repr

/-- Integer value of a tile mode as cast by SkTo-int in the writers. -/
def tmToInt : TileMode → Int
  | .clamp => 0
  | .repeatTM => 1
  | .mirror => 2
  | .decal => 3

/-- SkAlphaType (only the premul/unpremul values are exercised here). -/
inductive AlphaType where
  | premul
  | unpremul
  | opaqueAT
  | unknownAT
  deriving DecidableEq, Repr

/-- An SkColorSpace reference; srgb is the distinguished space produced
by SkColorSpace::MakeSRGB(). -/
inductive ColorSpace where
  | srgb
  | cs (id : Nat)
  deriving DecidableEq, Repr

/-- SkSamplingOptions: filter mode tag, cubic flag and cubic B/C. -/
structure SamplingOptions where
  filter : Int
  useCubic : Bool
  cubicB : ℚ
  cubicC : ℚ
  deriving DecidableEq, Repr

/-- Built-in and runtime code snippet identifiers
(BuiltInCodeSnippetID plus dynamically interned runtime IDs). -/
inductive SnippetID where
  | priorOutput
  | solidColor
  | linearGrad4
  | linearGrad8
  | linearGradTex
  | radialGrad4
  | radialGrad8
  | radialGradTex
  | sweepGrad4
  | sweepGrad8
  | sweepGradTex
  | conicalGrad4
  | conicalGrad8
  | conicalGradTex
  | imageShader
  | ditherShader
  | blendShader
  | blendModeBlender
  | coeffBlender
  | dstColor
  | primitiveColor
  | matrixColorFilter
  | composeColorFilter
  | gaussianColorFilter
  | tableColorFilter
  | colorSpaceXform
  | runtime (id : Nat)
  deriving DecidableEq, Repr

/-- One call on the PaintParamsKeyBuilder: beginBlock with a snippet id,
or endBlock. -/
inductive KeyOp where
  | begin (id : SnippetID)
  | endB
  deriving DecidableEq, Repr

/-- One typed write call on the PipelineDataGatherer. -/
inductive UWrite where
  | color4 (c : Color)
  | colorArr (cs : List Color)
  | f4 (xs : List ℚ)
  | f4Arr (xs : List ℚ) (n : Nat)
  | intW (i : Int)
  | floatW (x : ℚ)
  | boolW (b : Bool)
  | point (x y : ℚ)
  | rect (l t r b : ℚ)
  | half1 (x : ℚ)
  | half4 (xs : List ℚ)
  | halfArr (xs : List ℚ)
  | halfMat9 (xs : List ℚ)
  | halfMat16 (xs : List ℚ)
  | mat16 (xs : List ℚ)
  | rtUniforms (bytes : List Int)
  deriving DecidableEq, Repr

/-- One resource-binding call (gatherer add: sampling, tile modes,
texture-or-proxy reference). -/
structure ResBind where
  sampling : SamplingOptions
  tileX : TileMode
  tileY : TileMode
  proxy : Option TextureProxy
  deriving DecidableEq, Repr

/-- The full trace a writer emits: key-builder operations, uniform
writes and resource bindings. -/
structure Emit where
  key : List KeyOp
  uni : List UWrite
  res : List ResBind
  deriving DecidableEq, Repr

/-- The empty trace. -/
def emptyE : Emit := ⟨[], [], []⟩

instance : Append Emit :=
  ⟨fun a b => ⟨a.key ++ b.key, a.uni ++ b.uni, a.res ++ b.res⟩⟩

/-- The endBlock call issued by a writer after its children. -/
def endBlockE : Emit := ⟨[KeyOp.endB], [], []⟩

/-- skcms_TransferFunction: the seven coefficients starting at g. -/
structure TF where
  g : ℚ
  a : ℚ
  b : ℚ
  c : ℚ
  d : ℚ
  e : ℚ
  f : ℚ
  deriving DecidableEq, Repr

/-- The seven transfer-function coefficients in memory order (the
writeHalfArray in add_color_space_uniforms starts at field g). -/
def tfCoeffs (t : TF) : List ℚ := [t.g, t.a, t.b, t.c, t.d, t.e, t.f]

/-- Modelled from the spec: SkColorSpaceXformSteps::Flags (the steps
structure itself lives outside the excerpt); the three enable bits used
by add_color_space_uniforms plus the premul/unpremul bits in the mask. -/
structure XformFlags where
  unpremulF : Bool
  linearize : Bool
  gamut_transform : Bool
  encode : Bool
  premulF : Bool
  deriving DecidableEq, Repr

/-- Modelled from the spec: the flags mask serialized first by
add_color_space_uniforms; one bit per step. -/
def flagsMask (f : XformFlags) : Int :=
  (if f.unpremulF then 1 else 0) + (if f.linearize then 2 else 0) +
    (if f.gamut_transform then 4 else 0) + (if f.encode then 8 else 0) +
    (if f.premulF then 16 else 0)

/-- Modelled from the spec: SkColorSpaceXformSteps as consumed by
add_color_space_uniforms — step-enable flags, the source transfer
function, the inverse destination transfer function, and the 3x3
gamut matrix. -/
structure XformSteps where
  flags : XformFlags
  srcTF : TF
  dstTFInv : TF
  src_to_dst_matrix : List ℚ
  deriving DecidableEq, Repr

/-- The value of skcms_TFType_Invalid written for a disabled step. -/
def tfTypeInvalid : Int := 0

/-- Row-major identity SkMatrix (what a default-constructed SkMatrix
holds when the gamut-transform step is disabled). -/
def idMat9 : List ℚ := [1, 0, 0, 0, 1, 0, 0, 0, 1]

/-- Row-major identity SkM44 (what writeHalf(SkM44()) emits when cubic
resampling is not used). -/
def idMat16 : List ℚ := [1, 0, 0, 0, 0, 1, 0, 0, 0, 0, 1, 0, 0, 0, 0, 1]

/-- External collaborators of the writers, per spec section 6: the
resource provider, the shader-code dictionary, Porter-Duff coefficient
lookup, the color-space step computation, uniform transformation for
runtime effects, color mapping into the destination space, and the
destination color info held by the KeyContext. -/
structure Env where
  createCachedProxy : Nat → Option TextureProxy
  runtimeSnippet : Nat → Nat
  porterDuffCoeffs : Int → List ℚ
  computeSteps : Option ColorSpace → AlphaType → Option ColorSpace → AlphaType → XformSteps
  transformUniforms : List Int → List Int
  mapColor : Color → Color
  tfGetType : TF → Int
  cubicMatrix : ℚ → ℚ → List ℚ
  dstAlphaType : AlphaType
  dstColorSpace : Option ColorSpace

/-- The destination color space after the MakeSRGB fallback applied by
the working-format writer. -/
def resolveDstCS (env : Env) : ColorSpace := env.dstColorSpace.getD ColorSpace.srgb

/-- add_color_space_uniforms: mask, then (TF type tag, seven half
coefficients) for linearize, the half 3x3 gamut matrix, then (TF type
tag, seven half coefficients) for encode.  Disabled linearize/encode
slots carry the invalid tag and zeroed coefficients; a disabled gamut
slot carries the default-constructed (identity) matrix. -/
def add_color_space_uniforms (env : Env) (steps : XformSteps) : List UWrite :=
  [UWrite.intW (flagsMask steps.flags)]
    ++ (if steps.flags.linearize then
          [UWrite.intW (env.tfGetType steps.srcTF), UWrite.halfArr (tfCoeffs steps.srcTF)]
        else
          [UWrite.intW tfTypeInvalid, UWrite.halfArr (List.replicate 7 (0 : ℚ))])
    ++ [UWrite.halfMat9
          (if steps.flags.gamut_transform then steps.src_to_dst_matrix else idMat9)]
    ++ (if steps.flags.encode then
          [UWrite.intW (env.tfGetType steps.dstTFInv), UWrite.halfArr (tfCoeffs steps.dstTFInv)]
        else
          [UWrite.intW tfTypeInvalid, UWrite.halfArr (List.replicate 7 (0 : ℚ))])

/-- The shape (type and size, not content) of one uniform write; used to
state layout invariance. -/
inductive UShape where
  | sColor4
  | sColorArr (n : Nat)
  | sF4
  | sF4Arr (n : Nat)
  | sInt
  | sFloat
  | sBool
  | sPoint
  | sRect
  | sHalf1
  | sHalf4
  | sHalfArr (n : Nat)
  | sHalfMat9
  | sHalfMat16
  | sMat16
  | sRtUniforms
  deriving DecidableEq, Repr

/-- Shape of a uniform write. -/
def uwShape : UWrite → UShape
  | .color4 _ => .sColor4
  | .colorArr cs => .sColorArr cs.length
  | .f4 _ => .sF4
  | .f4Arr _ n => .sF4Arr n
  | .intW _ => .sInt
  | .floatW _ => .sFloat
  | .boolW _ => .sBool
  | .point _ _ => .sPoint
  | .rect _ _ _ _ => .sRect
  | .half1 _ => .sHalf1
  | .half4 _ => .sHalf4
  | .halfArr xs => .sHalfArr xs.length
  | .halfMat9 _ => .sHalfMat9
  | .halfMat16 _ => .sHalfMat16
  | .mat16 _ => .sMat16
  | .rtUniforms _ => .sRtUniforms

/-- PriorOutputBlock::BeginBlock: key-only, no uniforms. -/
def PriorOutputBlock.BeginBlock : Emit :=
  ⟨[KeyOp.begin SnippetID.priorOutput], [], []⟩

/-- SolidColorShaderBlock::BeginBlock: writes the premultiplied color
when a gatherer is present, then begins the solid-color block. -/
def SolidColorShaderBlock.BeginBlock (g : Bool) (premulColor : Color) : Emit :=
  ⟨[KeyOp.begin SnippetID.solidColor], if g then [UWrite.color4 premulColor] else [], []⟩

/-- GradientType (SkShaderBase::GradientType); noneT stands for kNone. -/
inductive GradientType where
  | linear
  | radial
  | sweep
  | conical
  | noneT
  deriving DecidableEq, Repr

/-- SkGradientShader::Interpolation: the color-space tag and the
in-premul flag as serialized by add_gradient_postamble. -/
structure Interpolation where
  colorSpace : Int
  inPremul : Bool
  deriving DecidableEq, Repr

/-- GradientShaderBlocks::GradientData.  The color and offset arrays
have the fixed internal capacity of 8 (kNumInternalStorageStops). -/
structure GradientData where
  fType : GradientType
  fPoints0 : ℚ × ℚ
  fPoints1 : ℚ × ℚ
  fRadii0 : ℚ
  fRadii1 : ℚ
  fBias : ℚ
  fScale : ℚ
  fTM : TileMode
  fNumStops : Int
  fColors : List Color
  fOffsets : List ℚ
  fColorsAndOffsetsProxy : Option TextureProxy
  fInterpolation : Interpolation
  deriving DecidableEq, Repr

/-- The GradientData constructor taking actual stop data (KeyHelpers.cpp
lines 251-294).  The SkASSERT preconditions (at least one stop; a
texture proxy must accompany more than 8 stops) are modelled by
returning none when violated.  When the stops fit inline, offsets
default to an even spacing if absent, and both arrays are padded up to
capacity by repeating the last stop. -/
def GradientData.make (ty : GradientType) (p0 p1 : ℚ × ℚ)
    (r0 r1 bias scale : ℚ) (tm : TileMode) (numStops : Int)
    (colors : List Color) (offsets : Option (List ℚ))
    (proxy : Option TextureProxy) (interp : Interpolation) :
    Option GradientData :=
  if 1 ≤ numStops then
    if numStops ≤ 8 then
      let n : Nat := numStops.toNat
      let offs : List ℚ :=
        match offsets with
        | some o => o
        | none => (List.range n).map (fun i => (i : ℚ) / ((n : ℚ) - 1))
      some
        { fType := ty, fPoints0 := p0, fPoints1 := p1, fRadii0 := r0, fRadii1 := r1,
          fBias := bias, fScale := scale, fTM := tm, fNumStops := numStops,
          fColors := (List.range 8).map
            (fun i => if i < n then colors.getD i cZero else colors.getD (n - 1) cZero),
          fOffsets := (List.range 8).map
            (fun i => if i < n then offs.getD i 0 else offs.getD (n - 1) 0),
          fColorsAndOffsetsProxy := none, fInterpolation := interp }
    else
      match proxy with
      | some p =>
        some
          { fType := ty, fPoints0 := p0, fPoints1 := p1, fRadii0 := r0, fRadii1 := r1,
            fBias := bias, fScale := scale, fTM := tm, fNumStops := numStops,
            fColors := List.replicate 8 cZero, fOffsets := List.replicate 8 0,
            fColorsAndOffsetsProxy := some p, fInterpolation := interp }
      | none => none
  else none

/-- add_gradient_preamble: inline stops rounded up to 4 (color array of
4 plus one packed float4 of offsets) or to 8 (color array of 8 plus a
2-element float4 array of offsets); nothing for texture gradients. -/
def add_gradient_preamble (d : GradientData) : List UWrite :=
  if d.fNumStops ≤ 8 then
    if d.fNumStops ≤ 4 then
      [UWrite.colorArr (d.fColors.take 4), UWrite.f4 (d.fOffsets.take 4)]
    else
      [UWrite.colorArr (d.fColors.take 8), UWrite.f4Arr (d.fOffsets.take 8) 2]
  else []

/-- add_gradient_postamble: the stop count (texture-based gradients
only), tile mode, interpolation color space, and the in-premul flag. -/
def add_gradient_postamble (d : GradientData) : List UWrite :=
  (if 8 < d.fNumStops then [UWrite.intW d.fNumStops] else [])
    ++ [UWrite.intW (tmToInt d.fTM), UWrite.intW d.fInterpolation.colorSpace,
        UWrite.intW (if d.fInterpolation.inPremul then 1 else 0)]

/-- The writes specific to each gradient family, emitted between the
preamble and the postamble. -/
def gradientTypeUniforms (d : GradientData) : List UWrite :=
  match d.fType with
  | .linear => [UWrite.point d.fPoints0.1 d.fPoints0.2, UWrite.point d.fPoints1.1 d.fPoints1.2]
  | .radial => [UWrite.point d.fPoints0.1 d.fPoints0.2, UWrite.floatW d.fRadii0]
  | .sweep => [UWrite.point d.fPoints0.1 d.fPoints0.2, UWrite.floatW d.fBias,
               UWrite.floatW d.fScale]
  | .conical => [UWrite.point d.fPoints0.1 d.fPoints0.2, UWrite.point d.fPoints1.1 d.fPoints1.2,
                 UWrite.floatW d.fRadii0, UWrite.floatW d.fRadii1]
  | .noneT => []

/-- Nearest-neighbor sampling used for the stops texture. -/
def nearestSampling : SamplingOptions := ⟨0, false, 0, 0⟩

/-- The resource binding of the stops texture for texture-based
gradients: nearest sampling with clamped tiling. -/
def gradientStopsBind (d : GradientData) : ResBind :=
  ⟨nearestSampling, TileMode.clamp, TileMode.clamp, d.fColorsAndOffsetsProxy⟩

/-- The snippet selected for stop counts of at most 4. -/
def fourStopSnippet : GradientType → SnippetID
  | .linear => .linearGrad4
  | .radial => .radialGrad4
  | .sweep => .sweepGrad4
  | .conical => .conicalGrad4
  | .noneT => .solidColor

/-- The snippet selected for stop counts of 5 through 8. -/
def eightStopSnippet : GradientType → SnippetID
  | .linear => .linearGrad8
  | .radial => .radialGrad8
  | .sweep => .sweepGrad8
  | .conical => .conicalGrad8
  | .noneT => .solidColor

/-- The snippet selected when the stops live in a texture. -/
def textureSnippet : GradientType → SnippetID
  | .linear => .linearGradTex
  | .radial => .radialGradTex
  | .sweep => .sweepGradTex
  | .conical => .conicalGradTex
  | .noneT => .solidColor

/-- GradientShaderBlocks::BeginBlock: binds the stops texture for
texture-based gradients when a gatherer is present, selects the snippet
by gradient family and stop count, emits the per-family uniform data,
and begins the selected block.  The kNone family falls through to the
solid-color snippet the switch variable is initialized with. -/
def GradientShaderBlocks.BeginBlock (_env : Env) (g : Bool) (d : GradientData) : Emit :=
  let resPart : List ResBind :=
    if g then (if 8 < d.fNumStops then [gradientStopsBind d] else []) else []
  let id : SnippetID :=
    match d.fType with
    | .linear =>
      if d.fNumStops ≤ 4 then .linearGrad4
      else if d.fNumStops ≤ 8 then .linearGrad8 else .linearGradTex
    | .radial =>
      if d.fNumStops ≤ 4 then .radialGrad4
      else if d.fNumStops ≤ 8 then .radialGrad8 else .radialGradTex
    | .sweep =>
      if d.fNumStops ≤ 4 then .sweepGrad4
      else if d.fNumStops ≤ 8 then .sweepGrad8 else .sweepGradTex
    | .conical =>
      if d.fNumStops ≤ 4 then .conicalGrad4
      else if d.fNumStops ≤ 8 then .conicalGrad8 else .conicalGradTex
    | .noneT => .solidColor
  let uniPart : List UWrite :=
    if g then
      match d.fType with
      | .noneT => []
      | _ => add_gradient_preamble d ++ gradientTypeUniforms d ++ add_gradient_postamble d
    else []
  ⟨[KeyOp.begin id], uniPart, resPart⟩

/-- ImageShaderBlock::ImageData: sampling, tile modes, subset rect,
read swizzle, color-space steps and the texture reference. -/
structure ImageData where
  fSampling : SamplingOptions
  fTileModeX : TileMode
  fTileModeY : TileMode
  fSubset : ℚ × ℚ × ℚ × ℚ
  fReadSwizzle : Int
  fSteps : XformSteps
  fTextureProxy : Option TextureProxy
  deriving DecidableEq, Repr

/-- add_image_uniform_data: texture dimensions, subset, tile modes,
filter mode, cubic flag, cubic (or identity) matrix, read swizzle, then
the color-space uniforms. -/
def add_image_uniform_data (env : Env) (d : ImageData) : List UWrite :=
  let dims : Int × Int :=
    match d.fTextureProxy with
    | some p => (p.width, p.height)
    | none => (0, 0)
  [UWrite.point (dims.1 : ℚ) (dims.2 : ℚ),
   UWrite.rect d.fSubset.1 d.fSubset.2.1 d.fSubset.2.2.1 d.fSubset.2.2.2,
   UWrite.intW (tmToInt d.fTileModeX), UWrite.intW (tmToInt d.fTileModeY),
   UWrite.intW d.fSampling.filter, UWrite.boolW d.fSampling.useCubic,
   UWrite.halfMat16
     (if d.fSampling.useCubic then env.cubicMatrix d.fSampling.cubicB d.fSampling.cubicC
      else idMat16),
   UWrite.intW d.fReadSwizzle]
    ++ add_color_space_uniforms env d.fSteps

/-- ImageShaderBlock::BeginBlock: with a gatherer and a null texture
reference it degrades to the fixed error-color solid block; otherwise
it binds the texture, writes the image uniforms (gatherer permitting)
and begins the image-shader block. -/
def ImageShaderBlock.BeginBlock (env : Env) (g : Bool) (d : ImageData) : Emit :=
  if g ∧ d.fTextureProxy = none then
    SolidColorShaderBlock.BeginBlock g kErrorColor
  else
    ⟨[KeyOp.begin SnippetID.imageShader],
     if g then add_image_uniform_data env d else [],
     if g then [⟨d.fSampling, d.fTileModeX, d.fTileModeY, d.fTextureProxy⟩] else []⟩

/-- DitherShaderBlock::DitherData. -/
structure DitherData where
  fRange : ℚ
  deriving DecidableEq, Repr

/-- The identity of the dither lookup-table bitmap (MakeDitherLUT) in
the resource-provider environment. -/
def kDitherLUTBitmapId : Nat := 0

/-- DitherShaderBlock::BeginBlock: with a gatherer it materializes the
dither LUT proxy; on failure it degrades to the pass-through
prior-output block, otherwise it writes the range uniform, binds the
LUT with nearest/repeat sampling and begins the dither block. -/
def DitherShaderBlock.BeginBlock (env : Env) (g : Bool) (d : DitherData) : Emit :=
  if g then
    match env.createCachedProxy kDitherLUTBitmapId with
    | none => PriorOutputBlock.BeginBlock
    | some p =>
      ⟨[KeyOp.begin SnippetID.ditherShader], [UWrite.half1 d.fRange],
       [⟨nearestSampling, TileMode.repeatTM, TileMode.repeatTM, some p⟩]⟩
  else ⟨[KeyOp.begin SnippetID.ditherShader], [], []⟩

/-- TableColorFilterBlock::TableColorFilterData. -/
structure TableColorFilterData where
  fTextureProxy : Option TextureProxy
  deriving DecidableEq, Repr

/-- TableColorFilterBlock::BeginBlock: with a gatherer and no texture
the filter is dropped (prior-output); otherwise the table texture is
bound with clamped tiling and the table block begins. -/
def TableColorFilterBlock.BeginBlock (_env : Env) (g : Bool)
    (data : TableColorFilterData) : Emit :=
  if g then
    match data.fTextureProxy with
    | none => PriorOutputBlock.BeginBlock
    | some p =>
      ⟨[KeyOp.begin SnippetID.tableColorFilter], [],
       [⟨nearestSampling, TileMode.clamp, TileMode.clamp, some p⟩]⟩
  else ⟨[KeyOp.begin SnippetID.tableColorFilter], [], []⟩

/-- ColorSpaceTransformBlock::ColorSpaceTransformData: the four
construction arguments plus the steps derived from them. -/
structure CSTData where
  src : Option ColorSpace
  srcAT : AlphaType
  dst : Option ColorSpace
  dstAT : AlphaType
  fSteps : XformSteps
  deriving DecidableEq, Repr

/-- The ColorSpaceTransformData constructor: records its arguments and
derives the transform steps from them. -/
def CSTData.of (env : Env) (src : Option ColorSpace) (srcAT : AlphaType)
    (dst : Option ColorSpace) (dstAT : AlphaType) : CSTData :=
  ⟨src, srcAT, dst, dstAT, env.computeSteps src srcAT dst dstAT⟩

/-- ColorSpaceTransformBlock::BeginBlock: writes the color-space
uniforms when a gatherer is present and begins the transform block. -/
def ColorSpaceTransformBlock.BeginBlock (env : Env) (g : Bool) (data : CSTData) : Emit :=
  ⟨[KeyOp.begin SnippetID.colorSpaceXform],
   if g then add_color_space_uniforms env data.fSteps else [], []⟩

/-- BlendShaderBlock::BeginBlock: key-only. -/
def BlendShaderBlock.BeginBlock : Emit :=
  ⟨[KeyOp.begin SnippetID.blendShader], [], []⟩

/-- BlendModeBlenderBlock::BeginBlock: writes the blend-mode integer
when a gatherer is present. -/
def BlendModeBlenderBlock.BeginBlock (g : Bool) (blendMode : Int) : Emit :=
  ⟨[KeyOp.begin SnippetID.blendModeBlender], if g then [UWrite.intW blendMode] else [], []⟩

/-- CoeffBlenderBlock::BeginBlock: writes the four Porter-Duff
coefficients as one half4 when a gatherer is present. -/
def CoeffBlenderBlock.BeginBlock (g : Bool) (coeffs : List ℚ) : Emit :=
  ⟨[KeyOp.begin SnippetID.coeffBlender], if g then [UWrite.half4 coeffs] else [], []⟩

/-- DstColorBlock::BeginBlock: key-only. -/
def DstColorBlock.BeginBlock : Emit :=
  ⟨[KeyOp.begin SnippetID.dstColor], [], []⟩

/-- PrimitiveColorBlock::BeginBlock: key-only. -/
def PrimitiveColorBlock.BeginBlock : Emit :=
  ⟨[KeyOp.begin SnippetID.primitiveColor], [], []⟩

/-- ComposeColorFilterBlock::BeginBlock: key-only. -/
def ComposeColorFilterBlock.BeginBlock : Emit :=
  ⟨[KeyOp.begin SnippetID.composeColorFilter], [], []⟩

/-- GaussianColorFilterBlock::BeginBlock: key-only. -/
def GaussianColorFilterBlock.BeginBlock : Emit :=
  ⟨[KeyOp.begin SnippetID.gaussianColorFilter], [], []⟩

/-- MatrixColorFilterBlock::MatrixColorFilterData. -/
structure MatrixColorFilterData where
  fMatrix : List ℚ
  fTranslate : List ℚ
  fInHSLA : Bool
  deriving DecidableEq, Repr

/-- MatrixColorFilterBlock::BeginBlock: writes the full-precision 4x4
matrix, the full-precision translate vector and the HSLA flag when a
gatherer is present. -/
def MatrixColorFilterBlock.BeginBlock (g : Bool) (data : MatrixColorFilterData) : Emit :=
  ⟨[KeyOp.begin SnippetID.matrixColorFilter],
   if g then
     [UWrite.mat16 data.fMatrix, UWrite.f4 data.fTranslate,
      UWrite.intW (if data.fInHSLA then 1 else 0)]
   else [], []⟩

/-- RuntimeEffectBlock::BeginBlock: interns the effect through the
dictionary to obtain its snippet, writes the (already transformed)
user uniforms when a gatherer is present, and begins the block. -/
def RuntimeEffectBlock.BeginBlock (env : Env) (g : Bool) (effectId : Nat)
    (uniformBytes : List Int) : Emit :=
  ⟨[KeyOp.begin (SnippetID.runtime (env.runtimeSnippet effectId))],
   if g then [UWrite.rtUniforms uniformBytes] else [], []⟩

/-- AddColorBlendBlock: a blend-shader block whose children are the
solid source color, the prior output, and a blend-mode blender. -/
def AddColorBlendBlock (_env : Env) (g : Bool) (bm : Int) (srcColor : Color) : Emit :=
  BlendShaderBlock.BeginBlock
    ++ SolidColorShaderBlock.BeginBlock g srcColor ++ endBlockE
    ++ PriorOutputBlock.BeginBlock ++ endBlockE
    ++ BlendModeBlenderBlock.BeginBlock g bm ++ endBlockE
    ++ endBlockE

/-- The color-filter variants dispatched by AddToKey(SkColorFilter).
Runtime-effect children are modelled (from the spec, since
SkRuntimeEffectPriv::AddChildrenToKey lives outside the excerpt) as a
list of nullable color filters recursed into by the same dispatcher;
a table filter carries the identity of its lookup-table bitmap. -/
inductive CF where
  | noop
  | blendModeF (mode : Int) (color : Color)
  | csXform (src : Option ColorSpace)
  | compose (inner outer : Option CF)
  | gaussian
  | matrixF (m translate : List ℚ) (hsla : Bool)
  | runtimeF (effectId : Nat) (uniformBytes : List Int) (children : List (Option CF))
  | table (bitmapId : Nat)
  | workingFormat (child : Option CF) (workingCS : ColorSpace) (workingAT : AlphaType)

/-- The blender variants dispatched by AddToKey(SkBlender): blend-mode
blenders and runtime blenders (children modelled as for runtimeF). -/
inductive Blender where
  | blendMode (mode : Int)
  | runtime (effectId : Nat) (uniformBytes : List Int) (children : List (Option CF))

mutual

/-- add_to_key dispatch on a concrete color-filter variant. -/
def emitCF (env : Env) (g : Bool) : CF → Emit
  | .noop => PriorOutputBlock.BeginBlock ++ endBlockE
  | .blendModeF mode color => AddColorBlendBlock env g mode (env.mapColor color)
  | .csXform src =>
    ColorSpaceTransformBlock.BeginBlock env g
        (CSTData.of env src AlphaType.premul src AlphaType.premul)
      ++ endBlockE
  | .compose inner outer =>
    ComposeColorFilterBlock.BeginBlock
      ++ addCF env g inner ++ addCF env g outer ++ endBlockE
  | .gaussian => GaussianColorFilterBlock.BeginBlock ++ endBlockE
  | .matrixF m translate hsla =>
    MatrixColorFilterBlock.BeginBlock g ⟨m, translate, hsla⟩ ++ endBlockE
  | .runtimeF effectId uniformBytes children =>
    RuntimeEffectBlock.BeginBlock env g effectId (env.transformUniforms uniformBytes)
      ++ emitChildren env g children ++ endBlockE
  | .table bitmapId =>
    match env.createCachedProxy bitmapId with
    | none => PriorOutputBlock.BeginBlock ++ endBlockE
    | some p => TableColorFilterBlock.BeginBlock env g ⟨some p⟩ ++ endBlockE
  | .workingFormat child wcs wat =>
    ComposeColorFilterBlock.BeginBlock
      ++ ComposeColorFilterBlock.BeginBlock
      ++ ColorSpaceTransformBlock.BeginBlock env g
           (CSTData.of env (some (resolveDstCS env)) env.dstAlphaType (some wcs) wat)
      ++ endBlockE
      ++ addCF env g child
      ++ endBlockE
      ++ ColorSpaceTransformBlock.BeginBlock env g
           (CSTData.of env (some wcs) wat (some (resolveDstCS env)) env.dstAlphaType)
      ++ endBlockE
      ++ endBlockE

/-- AddToKey(SkColorFilter): a null filter is a no-op; otherwise
dispatch on the variant. -/
def addCF (env : Env) (g : Bool) : Option CF → Emit
  | none => emptyE
  | some f => emitCF env g f

/-- Modelled from the spec: SkRuntimeEffectPriv::AddChildrenToKey
(outside the excerpt) recurses into each declared child with the same
dispatcher, in order. -/
def emitChildren (env : Env) (g : Bool) : List (Option CF) → Emit
  | [] => emptyE
  | c :: rest => addCF env g c ++ emitChildren env g rest

/-- AddToKey(SkBlender): a null blender is a no-op; a blend-mode
blender uses the coefficient block when Porter-Duff coefficients exist
and the generic blend-mode block otherwise; a runtime blender emits its
runtime-effect block around its children. -/
def AddToKeyBlender (env : Env) (g : Bool) : Option Blender → Emit
  | none => emptyE
  | some (.blendMode mode) =>
    if (env.porterDuffCoeffs mode).isEmpty then
      BlendModeBlenderBlock.BeginBlock g mode ++ endBlockE
    else
      CoeffBlenderBlock.BeginBlock g (env.porterDuffCoeffs mode) ++ endBlockE
  | some (.runtime effectId uniformBytes children) =>
    RuntimeEffectBlock.BeginBlock env g effectId (env.transformUniforms uniformBytes)
      ++ emitChildren env g children ++ endBlockE

end

/-- AddToKey(SkColorFilter), the public entry point. -/
def AddToKeyColorFilter (env : Env) (g : Bool) (f : Option CF) : Emit :=
  addCF env g f

/-- AddDstBlendBlock: a blend-shader block whose children are the prior
output, the destination color, and the blender (via AddToKey). -/
def AddDstBlendBlock (env : Env) (g : Bool) (blender : Option Blender) : Emit :=
  BlendShaderBlock.BeginBlock
    ++ PriorOutputBlock.BeginBlock ++ endBlockE
    ++ DstColorBlock.BeginBlock ++ endBlockE
    ++ AddToKeyBlender env g blender
    ++ endBlockE

/-- AddPrimitiveBlendBlock: a blend-shader block whose children are the
prior output, the primitive color, and the blender (via AddToKey). -/
def AddPrimitiveBlendBlock (env : Env) (g : Bool) (blender : Option Blender) : Emit :=
  BlendShaderBlock.BeginBlock
    ++ PriorOutputBlock.BeginBlock ++ endBlockE
    ++ PrimitiveColorBlock.BeginBlock ++ endBlockE
    ++ AddToKeyBlender env g blender
    ++ endBlockE

/-- Number of beginBlock calls in a key trace. -/
def beginCount (t : List KeyOp) : Nat :=
  t.countP fun op => match op with | .begin _ => true | .endB => false

/-- Number of endBlock calls in a key trace. -/
def endCount (t : List KeyOp) : Nat :=
  t.countP fun op => match op with | .begin _ => false | .endB => true

/-- Run a key trace from a given open-block depth: none if an endBlock
underflows (more ends than begins at some point), otherwise the final
depth. -/
def depthRun : List KeyOp → Nat → Option Nat
  | [], d => some d
  | KeyOp.begin _ :: r, d => depthRun r (d + 1)
  | KeyOp.endB :: r, d =>
    match d with
    | 0 => none
    | d' + 1 => depthRun r d'

/-- A key trace is balanced: starting from depth 0 it never underflows
and ends back at depth 0. -/
def Balanced (t : List KeyOp) : Prop := depthRun t 0 = some 0

instance (t : List KeyOp) : Decidable (Balanced t) := by
  unfold Balanced; infer_instance

/-- Count the blocks that begin at depth 0 of a key trace. -/
def topBlocksAux : Nat → List KeyOp → Nat
  | _, [] => 0
  | 0, KeyOp.begin _ :: r => topBlocksAux 1 r + 1
  | d + 1, KeyOp.begin _ :: r => topBlocksAux (d + 2) r
  | 0, KeyOp.endB :: r => topBlocksAux 0 r
  | d + 1, KeyOp.endB :: r => topBlocksAux d r

/-- The number of top-level blocks (children, when applied to the body
of an enclosing block) of a key trace. -/
def topBlocks (t : List KeyOp) : Nat := topBlocksAux 0 t

/-- All-zero transfer function, used for concrete instantiations. -/
def tf0 : TF := ⟨0, 0, 0, 0, 0, 0, 0⟩

/-- All-steps-disabled flags. -/
def flags0 : XformFlags := ⟨false, false, false, false, false⟩

/-- Concrete transform steps with every step disabled. -/
def steps0 : XformSteps := ⟨flags0, tf0, tf0, List.replicate 9 0⟩

/-- A concrete texture proxy. -/
def proxy0 : TextureProxy := ⟨1, 8, 8⟩

/-- A concrete environment whose resource provider always fails and
whose Porter-Duff table is empty. -/
def env0 : Env :=
  ⟨fun _ => none, fun n => n, fun _ => [], fun _ _ _ _ => steps0, fun u => u,
   fun c => c, fun _ => 0, fun _ _ => idMat16, AlphaType.premul, none⟩

/-- A concrete environment whose resource provider always succeeds. -/
def env1 : Env := { env0 with createCachedProxy := fun _ => some proxy0 }

/-- A concrete interpolation descriptor. -/
def interp0 : Interpolation := ⟨0, false⟩

/-- A concrete image-shader descriptor with a null texture reference. -/
def d0img : ImageData :=
  ⟨nearestSampling, TileMode.clamp, TileMode.clamp, (0, 0, 0, 0), 0, steps0, none⟩

/-- A concrete dither descriptor. -/
def ditherData0 : DitherData := ⟨0⟩

/-- A concrete linear GradientData with two stops. -/
def dGrad2 : GradientData :=
  ⟨GradientType.linear, (0, 0), (1, 0), 0, 0, 0, 0, TileMode.clamp, 2,
   [cZero, cZero], [0, 1], none, interp0⟩

/-- An opaque white color for concrete stops. -/
def cOne : Color := (1, 1, 1, 1)

/-- The GradientData produced by the stop-data constructor from two
stops (cZero then cOne) with explicit offsets 0 and 1. -/
def dIn2 : GradientData :=
  ⟨GradientType.linear, (0, 0), (1, 0), 0, 0, 0, 0, TileMode.clamp, 2,
   [cZero, cOne, cOne, cOne, cOne, cOne, cOne, cOne],
   [0, 1, 1, 1, 1, 1, 1, 1], none, interp0⟩

theorem Emit.append_key (a b : Emit) : (a ++ b).key = a.key ++ b.key := rfl

theorem Emit.append_uni (a b : Emit) : (a ++ b).uni = a.uni ++ b.uni := rfl

theorem Emit.append_res (a b : Emit) : (a ++ b).res = a.res ++ b.res := rfl

theorem depthRun_append (a b : List KeyOp) :
    ∀ d, depthRun (a ++ b) d = (depthRun a d).bind (depthRun b) := by
  induction a with
  | nil => intro d; rfl
  | cons op r ih =>
    intro d
    cases op with
    | begin i => simpa [depthRun] using ih (d + 1)
    | endB =>
      cases d with
      | zero => rfl
      | succ d' => simpa [depthRun] using ih d'

theorem depthRun_shift (a : List KeyOp) :
    ∀ d e k, depthRun a d = some e → depthRun a (d + k) = some (e + k) := by
  induction a with
  | nil =>
    intro d e k h
    simp only [depthRun, Option.some.injEq] at h ⊢
    omega
  | cons op r ih =>
    intro d e k h
    cases op with
    | begin i =>
      simp only [depthRun] at h ⊢
      have := ih (d + 1) e k h
      simpa [Nat.add_right_comm] using this
    | endB =>
      cases d with
      | zero => simp [depthRun] at h
      | succ d' =>
        simp only [depthRun] at h ⊢
        have := ih d' e k h
        simpa [Nat.add_right_comm] using this

theorem depthRun_counts (a : List KeyOp) :
    ∀ d e, depthRun a d = some e → d + beginCount a = e + endCount a := by
  induction a with
  | nil =>
    intro d e h
    simp only [depthRun, Option.some.injEq] at h
    simp [beginCount, endCount, h]
  | cons op r ih =>
    intro d e h
    cases op with
    | begin i =>
      simp only [depthRun] at h
      have := ih (d + 1) e h
      simp [beginCount, endCount, List.countP_cons] at this ⊢
      omega
    | endB =>
      cases d with
      | zero => simp [depthRun] at h
      | succ d' =>
        simp only [depthRun] at h
        have := ih d' e h
        simp [beginCount, endCount, List.countP_cons] at this ⊢
        omega

theorem balanced_counts (t : List KeyOp) (h : Balanced t) :
    beginCount t = endCount t := by
  have := depthRun_counts t 0 0 h
  omega

theorem balanced_take (t : List KeyOp) (h : Balanced t) :
    ∀ n, endCount (t.take n) ≤ beginCount (t.take n) := by
  intro n
  have h2 : depthRun (t.take n ++ t.drop n) 0 = some 0 := by
    rw [List.take_append_drop]; exact h
  rw [depthRun_append] at h2
  cases hm : depthRun (t.take n) 0 with
  | none => rw [hm] at h2; simp at h2
  | some m =>
    have := depthRun_counts (t.take n) 0 m hm
    omega

theorem balanced_nil : Balanced [] := rfl

theorem balanced_append {a b : List KeyOp} (ha : Balanced a) (hb : Balanced b) :
    Balanced (a ++ b) := by
  unfold Balanced at *
  rw [depthRun_append, ha]
  simpa using hb

theorem depthRun_close {x : List KeyOp} (hx : Balanced x) :
    depthRun (x ++ [KeyOp.endB]) 1 = some 0 := by
  rw [depthRun_append]
  have h1 : depthRun x 1 = some 1 := by simpa using depthRun_shift x 0 0 1 hx
  rw [h1]
  rfl

theorem balanced_wrap (i : SnippetID) {x : List KeyOp} (hx : Balanced x) :
    Balanced (KeyOp.begin i :: (x ++ [KeyOp.endB])) := by
  unfold Balanced
  show depthRun (x ++ [KeyOp.endB]) 1 = some 0
  exact depthRun_close hx

theorem balanced_splice (A B x : List KeyOp) (d : Nat)
    (hA : depthRun A 0 = some d) (hx : Balanced x) (hB : depthRun B d = some 0) :
    Balanced (A ++ (x ++ B)) := by
  unfold Balanced
  rw [depthRun_append, hA, Option.some_bind, depthRun_append]
  have hx' : depthRun x d = some d := by simpa using depthRun_shift x 0 0 d hx
  rw [hx', Option.some_bind]
  exact hB

theorem topBlocksAux_append (a : List KeyOp) :
    ∀ d e r, depthRun a d = some e →
      topBlocksAux (d + 1) (a ++ r) = topBlocksAux (e + 1) r := by
  induction a with
  | nil =>
    intro d e r h
    simp only [depthRun, Option.some.injEq] at h
    simp [h]
  | cons op rest ih =>
    intro d e r h
    cases op with
    | begin i =>
      simp only [depthRun] at h
      show topBlocksAux (d + 2) (rest ++ r) = topBlocksAux (e + 1) r
      exact ih (d + 1) e r h
    | endB =>
      cases d with
      | zero => simp [depthRun] at h
      | succ d' =>
        simp only [depthRun] at h
        show topBlocksAux (d' + 1) (rest ++ r) = topBlocksAux (e + 1) r
        exact ih d' e r h

theorem topBlocks_wrap (i : SnippetID) {x : List KeyOp} (hx : Balanced x) :
    topBlocks (KeyOp.begin i :: (x ++ [KeyOp.endB])) = 1 := by
  unfold topBlocks
  show topBlocksAux 1 (x ++ [KeyOp.endB]) + 1 = 1
  have := topBlocksAux_append x 0 0 [KeyOp.endB] hx
  simp only [Nat.zero_add] at this
  rw [this]
  rfl

mutual

theorem balanced_emitCF (env : Env) (g : Bool) (f : CF) :
    Balanced (emitCF env g f).key := by
  cases f with
  | noop =>
    simp [emitCF, PriorOutputBlock.BeginBlock, endBlockE, Emit.append_key, Balanced, depthRun]
  | blendModeF mode color =>
    simp [emitCF, AddColorBlendBlock, BlendShaderBlock.BeginBlock,
      SolidColorShaderBlock.BeginBlock, PriorOutputBlock.BeginBlock,
      BlendModeBlenderBlock.BeginBlock, endBlockE, Emit.append_key, Balanced, depthRun]
  | csXform src =>
    cases g <;>
      simp [emitCF, ColorSpaceTransformBlock.BeginBlock, endBlockE, Emit.append_key,
        Balanced, depthRun]
  | compose inner outer =>
    have h := balanced_append (balanced_addCF env g inner) (balanced_addCF env g outer)
    have h2 := balanced_wrap SnippetID.composeColorFilter h
    simpa [emitCF, ComposeColorFilterBlock.BeginBlock, endBlockE, Emit.append_key,
      List.append_assoc] using h2
  | gaussian =>
    simp [emitCF, GaussianColorFilterBlock.BeginBlock, endBlockE, Emit.append_key,
      Balanced, depthRun]
  | matrixF m translate hsla =>
    cases g <;>
      simp [emitCF, MatrixColorFilterBlock.BeginBlock, endBlockE, Emit.append_key,
        Balanced, depthRun]
  | runtimeF effectId uniformBytes children =>
    have h2 := balanced_wrap (SnippetID.runtime (env.runtimeSnippet effectId))
      (balanced_emitChildren env g children)
    simpa [emitCF, RuntimeEffectBlock.BeginBlock, endBlockE, Emit.append_key,
      List.append_assoc] using h2
  | table bitmapId =>
    cases hp : env.createCachedProxy bitmapId with
    | none =>
      simp [emitCF, hp, PriorOutputBlock.BeginBlock, endBlockE, Emit.append_key,
        Balanced, depthRun]
    | some p =>
      cases g <;>
        simp [emitCF, hp, TableColorFilterBlock.BeginBlock, PriorOutputBlock.BeginBlock,
          endBlockE, Emit.append_key, Balanced, depthRun]
  | workingFormat child wcs wat =>
    have h := balanced_splice
      [KeyOp.begin SnippetID.composeColorFilter, KeyOp.begin SnippetID.composeColorFilter,
       KeyOp.begin SnippetID.colorSpaceXform, KeyOp.endB]
      [KeyOp.endB, KeyOp.begin SnippetID.colorSpaceXform, KeyOp.endB, KeyOp.endB]
      (addCF env g child).key 2 (by decide) (balanced_addCF env g child) (by decide)
    simpa [emitCF, ComposeColorFilterBlock.BeginBlock, ColorSpaceTransformBlock.BeginBlock,
      endBlockE, Emit.append_key, List.append_assoc] using h

theorem balanced_addCF (env : Env) (g : Bool) (f : Option CF) :
    Balanced (addCF env g f).key := by
  cases f with
  | none => simp [addCF, emptyE, Balanced, depthRun]
  | some f' =>
    show Balanced (emitCF env g f').key
    exact balanced_emitCF env g f'

theorem balanced_emitChildren (env : Env) (g : Bool) (cs : List (Option CF)) :
    Balanced (emitChildren env g cs).key := by
  cases cs with
  | nil => simp [emitChildren, emptyE, Balanced, depthRun]
  | cons c rest =>
    show Balanced ((addCF env g c ++ emitChildren env g rest).key)
    exact balanced_append (balanced_addCF env g c) (balanced_emitChildren env g rest)

theorem balanced_blender (env : Env) (g : Bool) (b : Option Blender) :
    Balanced (AddToKeyBlender env g b).key := by
  cases b with
  | none => simp [AddToKeyBlender, emptyE, Balanced, depthRun]
  | some b' =>
    cases b' with
    | blendMode mode =>
      cases hc : (env.porterDuffCoeffs mode).isEmpty <;> cases g <;>
        simp [AddToKeyBlender, hc, BlendModeBlenderBlock.BeginBlock,
          CoeffBlenderBlock.BeginBlock, endBlockE, Emit.append_key, Balanced, depthRun]
    | runtime effectId uniformBytes children =>
      have h2 := balanced_wrap (SnippetID.runtime (env.runtimeSnippet effectId))
        (balanced_emitChildren env g children)
      simpa [AddToKeyBlender, RuntimeEffectBlock.BeginBlock, endBlockE, Emit.append_key,
        List.append_assoc] using h2

end

theorem Emit.append_def (a b : Emit) :
    a ++ b = ⟨a.key ++ b.key, a.uni ++ b.uni, a.res ++ b.res⟩ := rfl

/-- C9: a null effect pointer passed to an AddToKey entry point
(color-filter-like or blender-like) is a no-op: no key blocks, no
uniform writes, no resource bindings. -/
theorem c9_null_effect_noop (env : Env) (g : Bool) :
    AddToKeyColorFilter env g none = emptyE ∧ AddToKeyBlender env g none = emptyE :=
  ⟨rfl, rfl⟩

/-- C3: for every effect tree passed to an AddToKey entry point, the
number of beginBlock calls equals the number of endBlock calls, and on
every prefix of the emission the endBlock count never exceeds the
beginBlock count. -/
theorem c3_balanced_nesting (env : Env) (g : Bool) (f : Option CF) (b : Option Blender) :
    (beginCount (AddToKeyColorFilter env g f).key = endCount (AddToKeyColorFilter env g f).key
      ∧ ∀ n, endCount ((AddToKeyColorFilter env g f).key.take n)
          ≤ beginCount ((AddToKeyColorFilter env g f).key.take n))
  ∧ (beginCount (AddToKeyBlender env g b).key = endCount (AddToKeyBlender env g b).key
      ∧ ∀ n, endCount ((AddToKeyBlender env g b).key.take n)
          ≤ beginCount ((AddToKeyBlender env g b).key.take n)) := by
  have h1 : Balanced (AddToKeyColorFilter env g f).key := balanced_addCF env g f
  have h2 := balanced_blender env g b
  exact ⟨⟨balanced_counts _ h1, balanced_take _ h1⟩,
         ⟨balanced_counts _ h2, balanced_take _ h2⟩⟩

/-- C10: a color-space-xform color filter emits exactly one
color-space-transform block, whose transform steps are computed with
the filter's source color space as both source and destination of the
transform and with premul alpha on both sides. -/
theorem c10_cs_xform_same_space (env : Env) (g : Bool) (src : Option ColorSpace) :
    emitCF env g (CF.csXform src) =
      ⟨[KeyOp.begin SnippetID.colorSpaceXform, KeyOp.endB],
       if g then
         add_color_space_uniforms env
           (env.computeSteps src AlphaType.premul src AlphaType.premul)
       else [], []⟩ := by
  cases g <;>
    simp [emitCF, ColorSpaceTransformBlock.BeginBlock, CSTData.of, endBlockE,
      Emit.append_def]

/-- C6: a working-format color filter emits an outer compose block
whose children are, in order, an inner compose block and a
working-to-destination color-space transform; the inner compose wraps,
in order, a destination-to-working transform and the child filter's
emission. -/
theorem c6_working_format_shape (env : Env) (g : Bool) (child : Option CF)
    (wcs : ColorSpace) (wat : AlphaType) :
    (emitCF env g (CF.workingFormat child wcs wat)).key
      = [KeyOp.begin SnippetID.composeColorFilter, KeyOp.begin SnippetID.composeColorFilter,
         KeyOp.begin SnippetID.colorSpaceXform, KeyOp.endB]
        ++ (addCF env g child).key
        ++ [KeyOp.endB, KeyOp.begin SnippetID.colorSpaceXform, KeyOp.endB, KeyOp.endB]
  ∧ (emitCF env g (CF.workingFormat child wcs wat)).uni
      = (if g then
           add_color_space_uniforms env
             (env.computeSteps (some (resolveDstCS env)) env.dstAlphaType (some wcs) wat)
         else [])
        ++ (addCF env g child).uni
        ++ (if g then
              add_color_space_uniforms env
                (env.computeSteps (some wcs) wat (some (resolveDstCS env)) env.dstAlphaType)
            else []) := by
  cases g <;>
    simp [emitCF, ComposeColorFilterBlock.BeginBlock, ColorSpaceTransformBlock.BeginBlock,
      CSTData.of, endBlockE, Emit.append_def]

/-- C5 fails as stated, in two ways.  First, with a null blender,
AddDstBlendBlock emits a blend-shader block with only two children (the
blender child is absent because AddToKey on null is a no-op).  Second,
AddColorBlendBlock's first child is the solid source color and its
second child the prior output, not prior-output first as the claim
orders them. -/
theorem c5_counterexample :
    ((AddDstBlendBlock env0 true none).key
      = [KeyOp.begin SnippetID.blendShader, KeyOp.begin SnippetID.priorOutput, KeyOp.endB,
         KeyOp.begin SnippetID.dstColor, KeyOp.endB, KeyOp.endB]
    ∧ topBlocks (((AddDstBlendBlock env0 true none).key.drop 1).dropLast) = 2)
  ∧ ((AddColorBlendBlock env0 true 0 cZero).key
      = [KeyOp.begin SnippetID.blendShader, KeyOp.begin SnippetID.solidColor, KeyOp.endB,
         KeyOp.begin SnippetID.priorOutput, KeyOp.endB,
         KeyOp.begin SnippetID.blendModeBlender, KeyOp.endB, KeyOp.endB]
    ∧ ¬ (AddColorBlendBlock env0 true 0 cZero).key[1]?
          = some (KeyOp.begin SnippetID.priorOutput)) := by
  decide

/-- C5 (amended: the blender argument of the dst-blend and
primitive-blend conveniences must be non-null): each convenience emits
one blend-shader block with exactly three children in fixed order —
prior output (or, for color-blend, the solid source color), the
destination/primitive/prior-output child, and one blender child. -/
theorem c5_blend_block_shape (env : Env) (g : Bool) (b : Blender) (bm : Int) (c : Color) :
    (AddDstBlendBlock env g (some b)).key
      = [KeyOp.begin SnippetID.blendShader, KeyOp.begin SnippetID.priorOutput, KeyOp.endB,
         KeyOp.begin SnippetID.dstColor, KeyOp.endB]
        ++ (AddToKeyBlender env g (some b)).key ++ [KeyOp.endB]
  ∧ (AddPrimitiveBlendBlock env g (some b)).key
      = [KeyOp.begin SnippetID.blendShader, KeyOp.begin SnippetID.priorOutput, KeyOp.endB,
         KeyOp.begin SnippetID.primitiveColor, KeyOp.endB]
        ++ (AddToKeyBlender env g (some b)).key ++ [KeyOp.endB]
  ∧ topBlocks (AddToKeyBlender env g (some b)).key = 1
  ∧ (AddColorBlendBlock env g bm c).key
      = [KeyOp.begin SnippetID.blendShader, KeyOp.begin SnippetID.solidColor, KeyOp.endB,
         KeyOp.begin SnippetID.priorOutput, KeyOp.endB,
         KeyOp.begin SnippetID.blendModeBlender, KeyOp.endB, KeyOp.endB] := by
  refine ⟨?_, ?_, ?_, ?_⟩
  · simp [AddDstBlendBlock, BlendShaderBlock.BeginBlock, PriorOutputBlock.BeginBlock,
      DstColorBlock.BeginBlock, endBlockE, Emit.append_def]
  · simp [AddPrimitiveBlendBlock, BlendShaderBlock.BeginBlock, PriorOutputBlock.BeginBlock,
      PrimitiveColorBlock.BeginBlock, endBlockE, Emit.append_def]
  · cases b with
    | blendMode mode =>
      cases hc : (env.porterDuffCoeffs mode).isEmpty <;>
        simp [AddToKeyBlender, hc, BlendModeBlenderBlock.BeginBlock,
          CoeffBlenderBlock.BeginBlock, endBlockE, Emit.append_def, topBlocks, topBlocksAux]
    | runtime effectId uniformBytes children =>
      have h := topBlocks_wrap (SnippetID.runtime (env.runtimeSnippet effectId))
        (balanced_emitChildren env g children)
      simpa [AddToKeyBlender, RuntimeEffectBlock.BeginBlock, endBlockE, Emit.append_def,
        List.append_assoc] using h
  · simp [AddColorBlendBlock, BlendShaderBlock.BeginBlock, SolidColorShaderBlock.BeginBlock,
      PriorOutputBlock.BeginBlock, BlendModeBlenderBlock.BeginBlock, endBlockE,
      Emit.append_def]

/-- C2: converting an image shader with a null texture reference emits
the fixed error-color solid-color block instead of the image block; a
table color filter whose lookup-table proxy allocation fails emits a
pass-through prior-output block instead of the table block. -/
theorem c2_fallback_substitution (env : Env) (g : Bool) (d : ImageData) (bid : Nat)
    (hImg : d.fTextureProxy = none) (hTab : env.createCachedProxy bid = none) :
    ImageShaderBlock.BeginBlock env true d
      = ⟨[KeyOp.begin SnippetID.solidColor], [UWrite.color4 kErrorColor], []⟩
  ∧ emitCF env g (CF.table bid)
      = ⟨[KeyOp.begin SnippetID.priorOutput, KeyOp.endB], [], []⟩ := by
  constructor
  · simp [ImageShaderBlock.BeginBlock, hImg, SolidColorShaderBlock.BeginBlock]
  · simp [emitCF, hTab, PriorOutputBlock.BeginBlock, endBlockE, Emit.append_def]

/-- C2 witness: a concrete null-texture image shader and a table filter
in an environment whose proxy allocation fails. -/
theorem c2_witness :
    ImageShaderBlock.BeginBlock env0 true d0img
      = ⟨[KeyOp.begin SnippetID.solidColor], [UWrite.color4 kErrorColor], []⟩
  ∧ emitCF env0 true (CF.table 0)
      = ⟨[KeyOp.begin SnippetID.priorOutput], [], []⟩ ++ endBlockE :=
  c2_fallback_substitution env0 true d0img 0 rfl rfl

/-- C4 fails as stated: for an image shader whose texture reference is
null, key-only mode (null gatherer) emits the image-shader block while
gatherer mode substitutes the error-color solid block, so the block
sequences differ. -/
theorem c4_counterexample :
    ¬ (ImageShaderBlock.BeginBlock env0 false d0img).key
        = (ImageShaderBlock.BeginBlock env0 true d0img).key := by
  decide

/-- C4 (amended: the key sequences agree provided the writer's required
resources are available — the image texture reference is non-null and
the dither LUT proxy materializes; a null gatherer always skips all
uniform and resource emission). -/
theorem c4_key_only_mode (env : Env) (c : Color) (d : ImageData) (dd : DitherData)
    (hImg : d.fTextureProxy ≠ none)
    (hLUT : env.createCachedProxy kDitherLUTBitmapId ≠ none) :
    ((SolidColorShaderBlock.BeginBlock false c).uni = []
      ∧ (SolidColorShaderBlock.BeginBlock false c).res = []
      ∧ (SolidColorShaderBlock.BeginBlock false c).key
          = (SolidColorShaderBlock.BeginBlock true c).key)
  ∧ ((ImageShaderBlock.BeginBlock env false d).uni = []
      ∧ (ImageShaderBlock.BeginBlock env false d).res = []
      ∧ (ImageShaderBlock.BeginBlock env false d).key
          = (ImageShaderBlock.BeginBlock env true d).key)
  ∧ ((DitherShaderBlock.BeginBlock env false dd).uni = []
      ∧ (DitherShaderBlock.BeginBlock env false dd).res = []
      ∧ (DitherShaderBlock.BeginBlock env false dd).key
          = (DitherShaderBlock.BeginBlock env true dd).key) := by
  obtain ⟨p, hp⟩ := Option.ne_none_iff_exists'.mp hImg
  obtain ⟨q, hq⟩ := Option.ne_none_iff_exists'.mp hLUT
  refine ⟨⟨rfl, rfl, rfl⟩, ?_, ?_⟩
  · simp [ImageShaderBlock.BeginBlock, hp]
  · simp [DitherShaderBlock.BeginBlock, hq]

/-- C4 witness: concrete image and dither descriptors whose resources
are present, in an environment whose proxy allocation succeeds. -/
theorem c4_witness :
    ((SolidColorShaderBlock.BeginBlock false cZero).uni = []
      ∧ (SolidColorShaderBlock.BeginBlock false cZero).res = []
      ∧ (SolidColorShaderBlock.BeginBlock false cZero).key
          = (SolidColorShaderBlock.BeginBlock true cZero).key)
  ∧ (((ImageShaderBlock.BeginBlock env1 false
        { d0img with fTextureProxy := some proxy0 }).uni = [])
      ∧ (ImageShaderBlock.BeginBlock env1 false
          { d0img with fTextureProxy := some proxy0 }).res = []
      ∧ (ImageShaderBlock.BeginBlock env1 false
          { d0img with fTextureProxy := some proxy0 }).key
          = (ImageShaderBlock.BeginBlock env1 true
              { d0img with fTextureProxy := some proxy0 }).key)
  ∧ ((DitherShaderBlock.BeginBlock env1 false ditherData0).uni = []
      ∧ (DitherShaderBlock.BeginBlock env1 false ditherData0).res = []
      ∧ (DitherShaderBlock.BeginBlock env1 false ditherData0).key
          = (DitherShaderBlock.BeginBlock env1 true ditherData0).key) :=
  c4_key_only_mode env1 cZero { d0img with fTextureProxy := some proxy0 } ditherData0
    (by decide) (by decide)

/-- C7 fails as stated: with the gamut-transform step disabled, the
matrix slot written by add_color_space_uniforms holds the identity
matrix, which is not a zeroed placeholder. -/
theorem c7_counterexample :
    (add_color_space_uniforms env0 steps0)[3]? = some (UWrite.halfMat9 idMat9)
  ∧ ¬ idMat9 = List.replicate 9 (0 : ℚ) := by
  decide

/-- C7 (amended: the uniform layout of add_color_space_uniforms has the
same length and field shapes regardless of which steps are enabled;
disabled linearize/encode slots hold the invalid transfer-function tag
and zeroed coefficient arrays, while a disabled gamut-transform slot
holds the identity matrix rather than zeroes). -/
theorem c7_fixed_layout (env : Env) (s : XformSteps) :
    (add_color_space_uniforms env s).map uwShape
      = [UShape.sInt, UShape.sInt, UShape.sHalfArr 7, UShape.sHalfMat9,
         UShape.sInt, UShape.sHalfArr 7]
  ∧ (s.flags.linearize = false →
        (add_color_space_uniforms env s)[1]? = some (UWrite.intW tfTypeInvalid)
      ∧ (add_color_space_uniforms env s)[2]?
          = some (UWrite.halfArr (List.replicate 7 (0 : ℚ))))
  ∧ (s.flags.gamut_transform = false →
        (add_color_space_uniforms env s)[3]? = some (UWrite.halfMat9 idMat9))
  ∧ (s.flags.encode = false →
        (add_color_space_uniforms env s)[4]? = some (UWrite.intW tfTypeInvalid)
      ∧ (add_color_space_uniforms env s)[5]?
          = some (UWrite.halfArr (List.replicate 7 (0 : ℚ)))) := by
  rcases s with ⟨⟨u, l, gt, e, pm⟩, stf, dtf, m⟩
  cases l <;> cases gt <;> cases e <;>
    simp [add_color_space_uniforms, uwShape, tfCoeffs]

/-- C7 witness: the concrete all-disabled steps instantiate the amended
layout theorem, with every disabled-slot implication discharged. -/
theorem c7_witness :
    (add_color_space_uniforms env0 steps0).map uwShape
      = [UShape.sInt, UShape.sInt, UShape.sHalfArr 7, UShape.sHalfMat9,
         UShape.sInt, UShape.sHalfArr 7]
  ∧ (add_color_space_uniforms env0 steps0)[1]? = some (UWrite.intW tfTypeInvalid)
  ∧ (add_color_space_uniforms env0 steps0)[2]?
      = some (UWrite.halfArr (List.replicate 7 (0 : ℚ)))
  ∧ (add_color_space_uniforms env0 steps0)[3]? = some (UWrite.halfMat9 idMat9)
  ∧ (add_color_space_uniforms env0 steps0)[4]? = some (UWrite.intW tfTypeInvalid)
  ∧ (add_color_space_uniforms env0 steps0)[5]?
      = some (UWrite.halfArr (List.replicate 7 (0 : ℚ))) := by
  have h := c7_fixed_layout env0 steps0
  exact ⟨h.1, (h.2.1 rfl).1, (h.2.1 rfl).2, h.2.2.1 rfl, (h.2.2.2 rfl).1, (h.2.2.2 rfl).2⟩

theorem getD_range8_map {α : Type} (f : Nat → α) (dflt : α) (i : Nat) (hi : i < 8) :
    ((List.range 8).map f).getD i dflt = f i := by
  rw [List.getD_eq_getElem?_getD, List.getElem?_map, List.getElem?_range hi]
  rfl

/-- C8: every GradientData built by the stop-data constructor has at
least one stop; when the stops fit inline (at most 8), positions
numStops through 7 of the color and offset arrays repeat the last
stop's values; when the stop count exceeds the inline limit, the stops
texture proxy is non-null. -/
theorem c8_gradient_data_invariants (ty : GradientType) (p0 p1 : ℚ × ℚ)
    (r0 r1 bias scale : ℚ) (tm : TileMode) (numStops : Int)
    (colors : List Color) (offsets : Option (List ℚ))
    (proxy : Option TextureProxy) (interp : Interpolation) (d : GradientData)
    (h : GradientData.make ty p0 p1 r0 r1 bias scale tm numStops colors offsets proxy
          interp = some d) :
    1 ≤ d.fNumStops
  ∧ (d.fNumStops ≤ 8 → ∀ i : Nat, d.fNumStops.toNat ≤ i → i < 8 →
      d.fColors.getD i cZero = d.fColors.getD (d.fNumStops.toNat - 1) cZero
      ∧ d.fOffsets.getD i 0 = d.fOffsets.getD (d.fNumStops.toNat - 1) 0)
  ∧ (8 < d.fNumStops → d.fColorsAndOffsetsProxy ≠ none) := by
  simp only [GradientData.make] at h
  split at h
  case isTrue h1 =>
    split at h
    case isTrue h8 =>
      rw [Option.some.injEq] at h
      subst h
      simp only []
      refine ⟨h1, ?_, ?_⟩
      · intro _ i hni hi8
        have hn1 : 1 ≤ numStops.toNat := by omega
        constructor
        · rw [getD_range8_map _ _ i hi8, getD_range8_map _ _ (numStops.toNat - 1) (by omega)]
          rw [if_neg (by omega), if_pos (by omega)]
        · rw [getD_range8_map _ _ i hi8, getD_range8_map _ _ (numStops.toNat - 1) (by omega)]
          rw [if_neg (by omega), if_pos (by omega)]
      · intro hgt
        omega
    case isFalse h8 =>
      cases proxy with
      | none => simp at h
      | some p =>
        rw [Option.some.injEq] at h
        subst h
        simp only []
        refine ⟨h1, ?_, ?_⟩
        · intro h8'
          omega
        · intro _
          simp
  case isFalse h1 => simp at h

/-- C8 witness: the two-stop constructor call pads positions 2 through
7 with the last stop. -/
theorem c8_witness :
    1 ≤ dIn2.fNumStops
  ∧ (dIn2.fColors.getD 5 cZero = dIn2.fColors.getD (dIn2.fNumStops.toNat - 1) cZero
      ∧ dIn2.fOffsets.getD 5 0 = dIn2.fOffsets.getD (dIn2.fNumStops.toNat - 1) 0) := by
  have h : GradientData.make GradientType.linear (0, 0) (1, 0) 0 0 0 0 TileMode.clamp 2
      [cZero, cOne] (some [0, 1]) none interp0 = some dIn2 := by decide
  have hc := c8_gradient_data_invariants GradientType.linear (0, 0) (1, 0) 0 0 0 0
    TileMode.clamp 2 [cZero, cOne] (some [0, 1]) none interp0 dIn2 h
  exact ⟨hc.1, hc.2.1 (by decide) 5 (by decide) (by decide)⟩

/-- C1: for every GradientData of one of the four gradient families,
BeginBlock selects the 4-stop snippet when the stop count is at most 4,
the 8-stop snippet for 5 through 8, and the texture snippet otherwise;
and the uniform packing agrees: the 4-stop path writes a 4-entry color
array and one packed float4 of offsets, the 8-stop path an 8-entry
color array and two packed float4s, and the texture path writes no
inline stops but writes the stop count and binds the stops texture. -/
theorem c1_gradient_dispatch (env : Env) (d : GradientData)
    (ht : ¬ d.fType = GradientType.noneT) :
    (d.fNumStops ≤ 4 →
        (GradientShaderBlocks.BeginBlock env true d).key
          = [KeyOp.begin (fourStopSnippet d.fType)]
      ∧ (GradientShaderBlocks.BeginBlock env true d).uni
          = [UWrite.colorArr (d.fColors.take 4), UWrite.f4 (d.fOffsets.take 4)]
            ++ gradientTypeUniforms d
            ++ [UWrite.intW (tmToInt d.fTM), UWrite.intW d.fInterpolation.colorSpace,
                UWrite.intW (if d.fInterpolation.inPremul then 1 else 0)]
      ∧ (GradientShaderBlocks.BeginBlock env true d).res = [])
  ∧ (4 < d.fNumStops → d.fNumStops ≤ 8 →
        (GradientShaderBlocks.BeginBlock env true d).key
          = [KeyOp.begin (eightStopSnippet d.fType)]
      ∧ (GradientShaderBlocks.BeginBlock env true d).uni
          = [UWrite.colorArr (d.fColors.take 8), UWrite.f4Arr (d.fOffsets.take 8) 2]
            ++ gradientTypeUniforms d
            ++ [UWrite.intW (tmToInt d.fTM), UWrite.intW d.fInterpolation.colorSpace,
                UWrite.intW (if d.fInterpolation.inPremul then 1 else 0)]
      ∧ (GradientShaderBlocks.BeginBlock env true d).res = [])
  ∧ (8 < d.fNumStops →
        (GradientShaderBlocks.BeginBlock env true d).key
          = [KeyOp.begin (textureSnippet d.fType)]
      ∧ (GradientShaderBlocks.BeginBlock env true d).uni
          = gradientTypeUniforms d
            ++ [UWrite.intW d.fNumStops, UWrite.intW (tmToInt d.fTM),
                UWrite.intW d.fInterpolation.colorSpace,
                UWrite.intW (if d.fInterpolation.inPremul then 1 else 0)]
      ∧ (GradientShaderBlocks.BeginBlock env true d).res = [gradientStopsBind d]) := by
  refine ⟨fun h4 => ?_, fun h4 h8 => ?_, fun h8 => ?_⟩
  · have e8 : d.fNumStops ≤ 8 := by omega
    have e8n : ¬ 8 < d.fNumStops := by omega
    cases hty : d.fType <;>
      first
      | exact absurd hty ht
      | simp [GradientShaderBlocks.BeginBlock, add_gradient_preamble,
          add_gradient_postamble, gradientTypeUniforms, fourStopSnippet, hty, h4, e8, e8n]
  · have e4 : ¬ d.fNumStops ≤ 4 := by omega
    have e8n : ¬ 8 < d.fNumStops := by omega
    cases hty : d.fType <;>
      first
      | exact absurd hty ht
      | simp [GradientShaderBlocks.BeginBlock, add_gradient_preamble,
          add_gradient_postamble, gradientTypeUniforms, eightStopSnippet, hty, e4, h8, e8n]
  · have e4 : ¬ d.fNumStops ≤ 4 := by omega
    have e8 : ¬ d.fNumStops ≤ 8 := by omega
    cases hty : d.fType <;>
      first
      | exact absurd hty ht
      | simp [GradientShaderBlocks.BeginBlock, add_gradient_preamble,
          add_gradient_postamble, gradientTypeUniforms, textureSnippet, gradientStopsBind,
          hty, e4, e8, h8]

/-- C1 witness: a concrete two-stop linear gradient selects the 4-stop
snippet with the 4-stop uniform packing. -/
theorem c1_witness :
    (GradientShaderBlocks.BeginBlock env0 true dGrad2).key
      = [KeyOp.begin (fourStopSnippet dGrad2.fType)]
  ∧ (GradientShaderBlocks.BeginBlock env0 true dGrad2).uni
      = [UWrite.colorArr (dGrad2.fColors.take 4), UWrite.f4 (dGrad2.fOffsets.take 4)]
        ++ gradientTypeUniforms dGrad2
        ++ [UWrite.intW (tmToInt dGrad2.fTM), UWrite.intW dGrad2.fInterpolation.colorSpace,
            UWrite.intW (if dGrad2.fInterpolation.inPremul then 1 else 0)]
  ∧ (GradientShaderBlocks.BeginBlock env0 true dGrad2).res = [] :=
  (c1_gradient_dispatch env0 dGrad2 (by decide)).1 (by decide)

end SkiaGraphite
